import Mathlib

/-!
Verification development for the Altindan_bot order-intake pipeline.

The repository consists of three Python variants of a small web shop:
`main.py` (Flask order route backed by one JSON database file),
`bot_main.py` (Flask order route backed by separate products/orders JSON
files), and `web_server.py` (a JSON API endpoint that relays orders to a
Telegram group).  This file shallowly embeds the order-intake path of each
variant and proves or refutes the specification's claims about it.

Numeric values (product prices, parsed quantities) are modelled with `Rat`:
the Python sources only construct these numbers from decimal literals and
store them back into JSON, so exact rational arithmetic is faithful for
every input considered here.
-/

namespace Altindan

/-- A catalog entry, as stored in `database.json` / `products.json`
(`main.py` lines 66-77, `bot_main.py` lines 86-89): identifier, localized
names, price, image path and optional localized descriptions. -/
structure Product where
  id : String
  name_uz : String
  name_ru : String
  price : Rat
  image : String := ""
  desc_uz : String := ""
  desc_ru : String := ""
  deriving DecidableEq, Repr

/-- An admin credential record (`main.py` line 79). -/
structure Admin where
  username : String
  password : String
  deriving DecidableEq, Repr

/-- An order record as built by `main.py` lines 156-166: generated id,
product reference, denormalized product name and price, parsed quantity,
submitter fields and timestamp. -/
structure Order where
  id : String
  product_id : String
  product_name : String
  price : Rat
  qty : Rat
  name : String
  phone : String
  note : String
  time : String
  deriving DecidableEq, Repr

/-- The JSON database document of `main.py` (`ensure_db`, lines 64-81):
products, orders and admins live in one file that is read and rewritten
whole on every mutation. -/
structure DB where
  products : List Product
  orders : List Order
  admins : List Admin
  deriving DecidableEq, Repr

/-- The submitted HTML form fields of `POST /order/<product_id>`
(`main.py` lines 148-154, `bot_main.py` lines 131-139).  `none` models an
absent field; `request.form.get(k, d)` becomes `Option.getD`. -/
structure Form where
  name : Option String
  phone : Option String
  qty : Option String
  note : Option String
  lang : Option String
  deriving DecidableEq, Repr

/-- Environment-derived runtime configuration of `main.py` / `bot_main.py`:
whether the bot object was constructed (`BOT_TOKEN` set and init succeeded,
`main.py` lines 273-283), the parsed `ORDER_GROUP_ID` (lines 50-56), and
whether the background bot event loop is installed in `globals()`
(`main.py` lines 174, 329-331). -/
structure Config where
  botConfigured : Bool
  orderGroupId : Option Int
  aioloopRunning : Bool
  deriving DecidableEq, Repr

/-- Python truthiness of the optional integer `ORDER_GROUP_ID`
(`if ORDER_GROUP_ID:`): absent or zero is falsy. -/
def groupTruthy : Option Int → Bool
  | none => false
  | some g => g != 0

/-- Value of a digit string, used by the model of Python's `float`. -/
def digitsVal (cs : List Char) : Nat :=
  cs.foldl (fun n c => n * 10 + (c.toNat - 48)) 0

/-- Model of the Python builtin `float` applied to a form string
(`main.py` line 151), on the fragment of optional-sign decimal literals
`[+-]? digits [. digits]`.  Other inputs accepted by CPython (exponents,
`inf`/`nan`, underscores, surrounding whitespace) never arise in the
inputs considered here; everything else returns `none`, matching the
`ValueError` branch. -/
def pyFloat (s : String) : Option Rat :=
  let cs := s.toList
  let neg : Bool := cs.head? == some '-'
  let body := if neg || (cs.head? == some '+') then cs.drop 1 else cs
  let ip := body.takeWhile Char.isDigit
  let rest := body.dropWhile Char.isDigit
  let mag : List Char → Option Rat := fun fpart =>
    let m : Nat := digitsVal ip * 10 ^ fpart.length + digitsVal fpart
    let n : Int := if neg then -(m : Int) else (m : Int)
    some (mkRat n (10 ^ fpart.length))
  match rest with
  | [] => if ip.isEmpty then none else mag []
  | c :: fp =>
      if c == '.' && fp.all Char.isDigit && (!ip.isEmpty || !fp.isEmpty) then
        mag fp
      else none

/-- `find_product` (`main.py` lines 98-103): first product whose `id`
equals the requested identifier, else `none`. -/
def find_product (db : DB) (pid : String) : Option Product :=
  db.products.find? fun p => p.id == pid

/-- `product.get(f"name_{lang}", product.get("name_ru"))`
(`main.py` line 159): the localized name for `lang`, falling back to the
Russian name when the localized key does not exist. -/
def Product.nameFor (p : Product) (lang : String) : String :=
  if lang = "uz" then p.name_uz
  else if lang = "ru" then p.name_ru
  else p.name_ru

/-- Events emitted on the intake path, used to state ordering properties:
`persist` is the durable store write (`write_db` / the orders-file dump),
`notify` is the scheduling or sending of the Telegram notification. -/
inductive EvKind where
  | persist
  | notify
  deriving DecidableEq, Repr

/-- Response of the `order` route (`main.py` lines 140-183): either the
404 page `"Mahsulot topilmadi"` or the rendered confirmation carrying the
created order. -/
inductive OrderResponse where
  | notFound
  | ordered (o : Order)
  deriving DecidableEq, Repr

/-- Result of one `POST /order/<product_id>` request against `main.py`:
the HTTP response, the database state written back, and the event trace. -/
structure IntakeResult where
  resp : OrderResponse
  db : DB
  trace : List EvKind
  deriving DecidableEq, Repr

/-- The order dict literal of `main.py` lines 156-166.  `uuidHex` stands
for `uuid.uuid4().hex` and `timeNow` for `datetime.datetime.now().isoformat()`,
both captured at submission time; the Python slice `hex[:8]` is the first
eight code points, modelled at the character-list level. -/
def mkOrder (product : Product) (pid uuidHex timeNow lang : String)
    (form : Form) : Order :=
  { id := "o" ++ String.mk (uuidHex.toList.take 8)
    product_id := pid
    product_name := product.nameFor lang
    price := product.price
    qty := (pyFloat (form.qty.getD "1")).getD 1
    name := form.name.getD "Anonim"
    phone := form.phone.getD ""
    note := form.note.getD ""
    time := timeNow }

/-- The POST branch of `order(product_id)` in `main.py` (lines 140-181):
resolve the product (404 if absent), build the order record, append it to
`db["orders"]`, write the whole database back (`persist`), and schedule the
Telegram notification iff the bot event loop exists (`notify`).  `langArg`
is the `lang` query parameter, which takes precedence over the form field
(line 142). -/
def order_post (cfg : Config) (db : DB) (product_id uuidHex timeNow : String)
    (langArg : Option String) (form : Form) : IntakeResult :=
  let lang := langArg.getD (form.lang.getD "ru")
  match find_product db product_id with
  | none => ⟨.notFound, db, []⟩
  | some product =>
      let o := mkOrder product product_id uuidHex timeNow lang form
      ⟨.ordered o, { db with orders := db.orders ++ [o] },
        [EvKind.persist] ++ (if cfg.aioloopRunning then [EvKind.notify] else [])⟩

/-- Outcome of the notification dispatcher: not attempted, delivered, or a
transport exception caught and printed (`main.py` lines 296-303). -/
inductive SendResult where
  | notSent
  | sent
  | loggedError (e : String)
  deriving DecidableEq, Repr

/-- `send_order_to_group_async` (`main.py` lines 296-303): no-op when the
bot is not constructed or `ORDER_GROUP_ID` is falsy; otherwise the
transport call is attempted and any exception is caught and printed.  The
external `bot.send_message` call is abstracted as `transport`. -/
def send_order_to_group_async (cfg : Config)
    (transport : Order → Except String Unit) (o : Order) : SendResult :=
  if cfg.botConfigured = false then .notSent
  else if groupTruthy cfg.orderGroupId = false then .notSent
  else
    match transport o with
    | .ok _ => .sent
    | .error e => .loggedError e

/-- Result of a full request including the eventual notification outcome. -/
structure FullResult where
  resp : OrderResponse
  db : DB
  send : SendResult
  deriving DecidableEq, Repr

/-- A `POST /order/<product_id>` request of `main.py` together with the
dispatcher run it schedules (lines 172-179 plus 296-303): the coroutine is
only scheduled when the bot loop exists, and the HTTP response is rendered
without waiting for it. -/
def order_post_full (cfg : Config) (transport : Order → Except String Unit)
    (db : DB) (product_id uuidHex timeNow : String)
    (langArg : Option String) (form : Form) : FullResult :=
  let r := order_post cfg db product_id uuidHex timeNow langArg form
  match r.resp with
  | .ordered o =>
      ⟨r.resp, r.db,
        if cfg.aioloopRunning then send_order_to_group_async cfg transport o
        else .notSent⟩
  | .notFound => ⟨r.resp, r.db, .notSent⟩

/-- File-system operations issued by the store writer.  `openTruncate` is
`Path.open("w")` (truncates the target on open), `writeContent` writes the
full serialized document, `rename` is an atomic rename onto the target. -/
inductive FsOp where
  | openTruncate (path : String)
  | writeContent (path : String) (data : DB)
  | rename (src dst : String)
  deriving DecidableEq, Repr

/-- Whether an operation is a rename. -/
def FsOp.isRename : FsOp → Bool
  | .rename _ _ => true
  | _ => false

/-- The database file path of `main.py` (line 38). -/
def dbPath : String := "database.json"

/-- `write_db(data)` (`main.py` lines 93-95) as its sequence of file
operations: `DB_FILE.open("w")` truncates the target in place, then
`json.dump` writes the full serialized document.  No temporary file and no
rename appear in the source. -/
def write_db_ops (data : DB) : List FsOp :=
  [FsOp.openTruncate dbPath, FsOp.writeContent dbPath data]

/-- Observable content of the database file: a fully serialized document,
or the empty/truncated state exposed between open and write. -/
inductive FileContent where
  | empty
  | full (data : DB)
  deriving DecidableEq, Repr

/-- Effect of one file operation on the target file's observable content.
`write_db_ops` issues no rename (proved below), so the rename case leaves
the content unchanged; it exists only to make the discipline question
(`isRename`) statable over the same operation type. -/
def applyOp (fc : FileContent) (op : FsOp) : FileContent :=
  match op with
  | .openTruncate _ => .empty
  | .writeContent _ d => .full d
  | .rename _ _ => fc

/-- `updateProducts f db` replaces the products table by `f` applied to it.
Modelled from the spec: the source under `src/` has no price-edit endpoint
(catalog management is out of the intake core), so "later changing the
product's price in the catalog" is modelled as an arbitrary update of the
products list, which subsumes any price change. -/
def updateProducts (f : List Product → List Product) (db : DB) : DB :=
  { db with products := f db.products }

/-- An order record as built by `bot_main.py` lines 131-140: note that it
carries no generated identifier and stores the submitted quantity string
verbatim (`request.form.get("qty","1")` is not parsed). -/
structure BotOrder where
  product_id : String
  product_name : String
  price : Rat
  qty : String
  name : String
  phone : String
  note : String
  time : String
  deriving DecidableEq, Repr

/-- Response of the `order(pid)` route in `bot_main.py` (lines 124-159):
404 page or the rendered confirmation (which carries no order data). -/
inductive BotResponse where
  | notFound
  | ordered
  deriving DecidableEq, Repr

/-- Result of one `POST /order/<pid>` request against `bot_main.py`. -/
structure BotIntakeResult where
  resp : BotResponse
  orders : List BotOrder
  trace : List EvKind
  deriving DecidableEq, Repr

/-- The order dict literal of `bot_main.py` lines 131-140. -/
def mkBotOrder (product : Product) (pid timeNow : String) (form : Form) :
    BotOrder :=
  { product_id := pid
    product_name := product.name_ru
    price := product.price
    qty := form.qty.getD "1"
    name := form.name.getD "Anonim"
    phone := form.phone.getD ""
    note := form.note.getD ""
    time := timeNow }

/-- The POST branch of `order(pid)` in `bot_main.py` (lines 124-159):
resolve the product from `products.json` (404 if absent), build the order
dict, append it to the parsed `orders.json` array `arr` and write the file
back (`persist`), then schedule the notification iff the bot loop exists,
`BOT_TOKEN` is set and `ORDER_GROUP_ID` is truthy (lines 153-155). -/
def bot_order_post (cfg : Config) (products : List Product)
    (arr : List BotOrder) (pid timeNow : String) (form : Form) :
    BotIntakeResult :=
  match products.find? (fun p => p.id == pid) with
  | none => ⟨.notFound, arr, []⟩
  | some product =>
      let o := mkBotOrder product pid timeNow form
      ⟨.ordered, arr ++ [o],
        [EvKind.persist] ++
          (if cfg.aioloopRunning && cfg.botConfigured && groupTruthy cfg.orderGroupId
           then [EvKind.notify] else [])⟩

/-- Environment configuration of `web_server.py` (lines 9-20): whether
`TOKEN` is set (so the bot object exists) and the parsed `GROUP_ID_INT`. -/
structure WsConfig where
  botConfigured : Bool
  groupId : Option Int
  deriving DecidableEq, Repr

/-- The JSON payload read by `api_order` (`web_server.py` lines 44-53).
`none` models an absent key; every field is consumed as text by the
message template. -/
structure ApiPayload where
  title_uz : Option String
  title_ru : Option String
  productId : Option String
  price : Option String
  address : Option String
  qty : Option String
  img : Option String
  time : Option String
  deriving DecidableEq, Repr

/-- Python `a or b` on an optional string: `b` when the key is absent or
the value is the empty (falsy) string. -/
def pyOr (a : Option String) (b : String) : String :=
  match a with
  | some s => if s = "" then b else s
  | none => b

/-- `data.get('title_uz') or data.get('title_ru') or data.get('productId','-')`
(`web_server.py` line 48). -/
def api_title (d : ApiPayload) : String :=
  pyOr d.title_uz (pyOr d.title_ru (d.productId.getD "-"))

/-- The notification text built by `api_order` (`web_server.py` lines 55-60). -/
def api_text (d : ApiPayload) : String :=
  "📥 New order\n\n" ++
  "Product: " ++ api_title d ++ "\n" ++
  "Qty: " ++ d.qty.getD "1" ++ "\n" ++
  "Price: " ++ d.price.getD "-" ++ "\n" ++
  "Address: " ++ d.address.getD "-" ++ "\n" ++
  "Time: " ++ d.time.getD "-"

/-- Responses of `api_order` (`web_server.py` lines 42-73): 400 for a
missing/invalid JSON body, 500 when the bot token or group id is not
configured, 500 carrying `str(e)` when the transport raises, 200 `ok`
on delivery. -/
inductive ApiResponse where
  | noJson
  | notConfigured
  | sendError (e : String)
  | ok
  deriving DecidableEq, Repr

/-- Result of one `POST /api/order` request against `web_server.py`. -/
structure ApiResult where
  resp : ApiResponse
  trace : List EvKind
  deriving DecidableEq, Repr

/-- `api_order` (`web_server.py` lines 42-73): reject a missing body,
build the message text from the client-supplied fields, fail with 500 when
the bot or group id is unconfigured, otherwise attempt the Telegram send
(photo when `img` is truthy, message otherwise — both abstracted as
`transport img text`) and surface either `ok` or the raised error.  The
route touches no store and no catalog; its trace records the notification
attempt only. -/
def api_order (cfg : WsConfig)
    (transport : Option String → String → Except String Unit)
    (payload : Option ApiPayload) : ApiResult :=
  match payload with
  | none => ⟨.noJson, []⟩
  | some d =>
      let text := api_text d
      if cfg.botConfigured = false || groupTruthy cfg.groupId = false then
        ⟨.notConfigured, []⟩
      else
        let img : Option String :=
          match d.img with
          | some s => if s = "" then none else some s
          | none => none
        match transport img text with
        | .ok _ => ⟨.ok, [EvKind.notify]⟩
        | .error e => ⟨.sendError e, [EvKind.notify]⟩

/-- Result of the spec's Intake Endpoint contract. -/
inductive SpecIntakeResult where
  | notFound
  | accepted (o : Order)
  deriving DecidableEq, Repr

/-- Modelled from the spec: the Intake Endpoint contract applied to the
structured JSON channel (spec sections 4.5 and 6) — the payload's product
identifier must resolve via the Catalog Provider (else `NotFound`), an
order with the catalog price copied at submission time is persisted via
the Order Store, and only then is a notification dispatched.  This is the
behavior the claim asserts for `api_order`, for comparison against the
source definition above. -/
def specIntakeJson (db : DB) (product : String) (qty : Rat)
    (address timeSub lang oid : String) :
    SpecIntakeResult × DB × List EvKind :=
  match find_product db product with
  | none => (.notFound, db, [])
  | some p =>
      let o : Order :=
        { id := oid
          product_id := product
          product_name := p.nameFor lang
          price := p.price
          qty := qty
          name := ""
          phone := ""
          note := address
          time := timeSub }
      (.accepted o, { db with orders := db.orders ++ [o] },
        [EvKind.persist, EvKind.notify])

/-- Interleaved steps of two concurrent `POST /order` handlers running the
unlocked read-modify-write of `main.py` lines 168-170: each handler first
reads the orders file into a local snapshot (`read_db`), then writes the
snapshot plus its own record back (`write_db`). -/
inductive RWStep where
  | read1
  | write1
  | read2
  | write2
  deriving DecidableEq, Repr

/-- Shared state of the two-handler race: the orders file and each
handler's local snapshot (absent until its read has run). -/
structure RaceState where
  file : List Order
  snap1 : Option (List Order)
  snap2 : Option (List Order)
  deriving DecidableEq, Repr

/-- One interleaving step.  A read copies the file into the handler's
snapshot; a write stores the snapshot with the handler's record appended
(a write before its read never occurs in the schedules considered and is a
no-op). -/
def raceStep (o1 o2 : Order) (s : RaceState) : RWStep → RaceState
  | .read1 => { s with snap1 := some s.file }
  | .write1 =>
      match s.snap1 with
      | some l => { s with file := l ++ [o1] }
      | none => s
  | .read2 => { s with snap2 := some s.file }
  | .write2 =>
      match s.snap2 with
      | some l => { s with file := l ++ [o2] }
      | none => s

/-- Run a schedule of interleaved steps from an initial orders file. -/
def raceRun (o1 o2 : Order) (start : List Order) (sched : List RWStep) :
    RaceState :=
  sched.foldl (raceStep o1 o2) ⟨start, none, none⟩

/-- Whether an event is the durable store write. -/
def isPersist : EvKind → Bool
  | .persist => true
  | .notify => false

/-- Whether an event is a notification attempt. -/
def isNotify : EvKind → Bool
  | .notify => true
  | .persist => false

/-- `persistBefore evs` holds when no notification event occurs before the
first persist event: every notification in the trace is preceded by a
durable write. -/
def persistBefore (evs : List EvKind) : Bool :=
  (evs.takeWhile fun e => !(isPersist e)).all fun e => !(isNotify e)

/-- Sample catalog entry used by concrete witnesses. -/
def p1ex : Product :=
  { id := "p1", name_uz := "Chuchvara", name_ru := "Pelmeni",
    price := 45000, image := "p1.jpg" }

/-- Sample database used by concrete witnesses. -/
def dbEx : DB :=
  { products := [p1ex], orders := [], admins := [⟨"admin", "12345"⟩] }

/-- Sample configuration: bot constructed, group configured, loop running. -/
def cfgEx : Config :=
  { botConfigured := true, orderGroupId := some 5, aioloopRunning := true }

/-- Sample well-formed form submission. -/
def formEx : Form :=
  { name := some "Ali", phone := some "+998", qty := some "2",
    note := some "ok", lang := some "ru" }

/-- Form submission whose quantity is the negative numeral string. -/
def formNeg : Form :=
  { name := some "Ali", phone := some "+998", qty := some "-2",
    note := some "ok", lang := some "ru" }

/-- The order `main.py` creates from `dbEx`, product `p1`, uuid hex
`u123`, time `T` and `formEx`. -/
def oC1ex : Order :=
  { id := "ou123", product_id := "p1", product_name := "Pelmeni",
    price := 45000, qty := 2, name := "Ali", phone := "+998",
    note := "ok", time := "T" }

/-- The order `main.py` creates from `formNeg`: the quantity parses to the
negative value and is stored as such. -/
def oNegEx : Order :=
  { id := "ou123", product_id := "p1", product_name := "Pelmeni",
    price := 45000, qty := -2, name := "Ali", phone := "+998",
    note := "ok", time := "T" }

/-- First concurrent submission's record. -/
def o1ex : Order :=
  { id := "oA", product_id := "p1", product_name := "Pelmeni",
    price := 45000, qty := 1, name := "A", phone := "",
    note := "", time := "T1" }

/-- Second concurrent submission's record. -/
def o2ex : Order :=
  { id := "oB", product_id := "p1", product_name := "Pelmeni",
    price := 45000, qty := 1, name := "B", phone := "",
    note := "", time := "T2" }

/-- Sample structured-channel payload referencing the known product. -/
def payloadEx : ApiPayload :=
  { title_uz := some "Chuchvara", title_ru := none, productId := some "p1",
    price := some "45000", address := some "Tashkent", qty := some "2",
    img := none, time := some "12:00" }

/-- Structured-channel payload referencing a product id absent from the
catalog `dbEx`. -/
def payloadZ : ApiPayload :=
  { title_uz := none, title_ru := none, productId := some "zzz",
    price := some "9", address := some "Tashkent", qty := some "2",
    img := none, time := some "12:00" }

/-- A transport that always delivers. -/
def okT : Option String → String → Except String Unit := fun _ _ => .ok ()

/-- A transport that always raises. -/
def failT : Option String → String → Except String Unit :=
  fun _ _ => .error "boom"

/-- A dispatcher-side transport that always delivers. -/
def okTO : Order → Except String Unit := fun _ => .ok ()

/-- A dispatcher-side transport that always raises. -/
def failTO : Order → Except String Unit := fun _ => .error "boom"

/-- Unfolded form of `order_post` when the product does not resolve:
the 404 branch of `main.py` lines 143-145. -/
theorem order_post_none (cfg : Config) (db : DB)
    (pid uuidHex timeNow : String) (langArg : Option String) (form : Form)
    (h : find_product db pid = none) :
    order_post cfg db pid uuidHex timeNow langArg form =
      ⟨OrderResponse.notFound, db, []⟩ := by
  unfold order_post
  rw [h]

/-- Unfolded form of `order_post` when the product resolves. -/
theorem order_post_some (cfg : Config) (db : DB)
    (pid uuidHex timeNow : String) (langArg : Option String) (form : Form)
    (p : Product) (h : find_product db pid = some p) :
    order_post cfg db pid uuidHex timeNow langArg form =
      ⟨OrderResponse.ordered
          (mkOrder p pid uuidHex timeNow (langArg.getD (form.lang.getD "ru")) form),
        { db with orders := db.orders ++
            [mkOrder p pid uuidHex timeNow (langArg.getD (form.lang.getD "ru")) form] },
        [EvKind.persist] ++
          (if cfg.aioloopRunning then [EvKind.notify] else [])⟩ := by
  unfold order_post
  rw [h]

/-- Unfolded form of `bot_order_post` when the product does not resolve. -/
theorem bot_order_post_none (cfg : Config) (products : List Product)
    (arr : List BotOrder) (pid timeNow : String) (form : Form)
    (h : products.find? (fun p => p.id == pid) = none) :
    bot_order_post cfg products arr pid timeNow form =
      ⟨BotResponse.notFound, arr, []⟩ := by
  unfold bot_order_post
  rw [h]

/-- Unfolded form of `bot_order_post` when the product resolves. -/
theorem bot_order_post_some (cfg : Config) (products : List Product)
    (arr : List BotOrder) (pid timeNow : String) (form : Form)
    (p : Product) (h : products.find? (fun q => q.id == pid) = some p) :
    bot_order_post cfg products arr pid timeNow form =
      ⟨BotResponse.ordered, arr ++ [mkBotOrder p pid timeNow form],
        [EvKind.persist] ++
          (if cfg.aioloopRunning && cfg.botConfigured && groupTruthy cfg.orderGroupId
           then [EvKind.notify] else [])⟩ := by
  unfold bot_order_post
  rw [h]

/-- The response of a full request does not depend on the transport: it is
the response computed by the request handler alone. -/
theorem order_post_full_resp (cfg : Config)
    (t : Order → Except String Unit) (db : DB)
    (pid uuidHex timeNow : String) (langArg : Option String) (form : Form) :
    (order_post_full cfg t db pid uuidHex timeNow langArg form).resp =
      (order_post cfg db pid uuidHex timeNow langArg form).resp := by
  unfold order_post_full
  dsimp only
  split <;> rfl

/-- The database written by a full request does not depend on the
transport: it is the database computed by the request handler alone. -/
theorem order_post_full_db (cfg : Config)
    (t : Order → Except String Unit) (db : DB)
    (pid uuidHex timeNow : String) (langArg : Option String) (form : Form) :
    (order_post_full cfg t db pid uuidHex timeNow langArg form).db =
      (order_post cfg db pid uuidHex timeNow langArg form).db := by
  unfold order_post_full
  dsimp only
  split <;> rfl

/-- The trace of `api_order` is empty or a single notification attempt;
in particular it never contains a persist event. -/
theorem api_trace_cases (cfg : WsConfig)
    (t : Option String → String → Except String Unit)
    (p : Option ApiPayload) :
    (api_order cfg t p).trace = [] ∨
      (api_order cfg t p).trace = [EvKind.notify] := by
  unfold api_order
  rcases p with _ | d
  · exact Or.inl rfl
  · dsimp only
    split
    · exact Or.inl rfl
    · split
      · exact Or.inr rfl
      · exact Or.inr rfl

/-- C1: for every valid order submission, when `POST /order/<product_id>`
returns success the stored orders collection equals the previous one with
exactly one appended record whose `product_id` is the submitted
identifier, and every pre-existing record is preserved unchanged — in
both the `main.py` and the `bot_main.py` variant of the route. -/
theorem C1_order_success_appends_exactly_one :
    (∀ cfg db pid uuidHex timeNow langArg form o,
        (order_post cfg db pid uuidHex timeNow langArg form).resp =
          OrderResponse.ordered o →
        (order_post cfg db pid uuidHex timeNow langArg form).db.orders =
            db.orders ++ [o] ∧
          (order_post cfg db pid uuidHex timeNow langArg form).db.orders.length =
            db.orders.length + 1 ∧
          (order_post cfg db pid uuidHex timeNow langArg form).db.orders.take
              db.orders.length = db.orders ∧
          o.product_id = pid) ∧
    (∀ cfg products arr pid timeNow form,
        (bot_order_post cfg products arr pid timeNow form).resp =
          BotResponse.ordered →
        ∃ o, (bot_order_post cfg products arr pid timeNow form).orders =
            arr ++ [o] ∧ o.product_id = pid) := by
  constructor
  · intro cfg db pid u tm l f o h
    rcases hf : find_product db pid with _ | p
    · rw [order_post_none cfg db pid u tm l f hf] at h
      exact absurd h (by simp)
    · rw [order_post_some cfg db pid u tm l f p hf] at h ⊢
      injection h with h
      subst h
      refine ⟨rfl, by simp, by simp [List.take_left], rfl⟩
  · intro cfg products arr pid tm f h
    rcases hf : products.find? (fun q => q.id == pid) with _ | p
    · rw [bot_order_post_none cfg products arr pid tm f hf] at h
      exact absurd h (by simp)
    · rw [bot_order_post_some cfg products arr pid tm f p hf]
      exact ⟨mkBotOrder p pid tm f, rfl, rfl⟩

/-- Witness for C1 at a concrete submission. -/
theorem C1_order_success_appends_exactly_one_witness :
    ((order_post cfgEx dbEx "p1" "u123" "T" none formEx).db.orders =
        dbEx.orders ++ [oC1ex] ∧
      (order_post cfgEx dbEx "p1" "u123" "T" none formEx).db.orders.length =
        dbEx.orders.length + 1 ∧
      (order_post cfgEx dbEx "p1" "u123" "T" none formEx).db.orders.take
          dbEx.orders.length = dbEx.orders ∧
      oC1ex.product_id = "p1") ∧
    (∃ o, (bot_order_post cfgEx [p1ex] [] "p1" "T" formEx).orders =
        [] ++ [o] ∧ o.product_id = "p1") :=
  ⟨C1_order_success_appends_exactly_one.1 cfgEx dbEx "p1" "u123" "T" none
      formEx oC1ex (by decide),
   C1_order_success_appends_exactly_one.2 cfgEx [p1ex] [] "p1" "T" formEx
      (by decide)⟩

/-- C4: submitting an order for an identifier that does not resolve in the
catalog yields the 404 not-found response and leaves the stored collection
(and the whole database) exactly as it was, in both route variants. -/
theorem C4_unknown_product_404_no_mutation :
    (∀ cfg db pid uuidHex timeNow langArg form,
        find_product db pid = none →
        order_post cfg db pid uuidHex timeNow langArg form =
          ⟨OrderResponse.notFound, db, []⟩) ∧
    (∀ cfg products arr pid timeNow form,
        products.find? (fun p => p.id == pid) = none →
        bot_order_post cfg products arr pid timeNow form =
          ⟨BotResponse.notFound, arr, []⟩) :=
  ⟨fun cfg db pid u tm l f h => order_post_none cfg db pid u tm l f h,
   fun cfg products arr pid tm f h =>
     bot_order_post_none cfg products arr pid tm f h⟩

/-- Witness for C4 at a concrete unknown product identifier. -/
theorem C4_unknown_product_404_no_mutation_witness :
    order_post cfgEx dbEx "zzz" "u123" "T" none formEx =
        ⟨OrderResponse.notFound, dbEx, []⟩ ∧
      bot_order_post cfgEx [p1ex] [] "zzz" "T" formEx =
        ⟨BotResponse.notFound, [], []⟩ :=
  ⟨C4_unknown_product_404_no_mutation.1 cfgEx dbEx "zzz" "u123" "T" none
      formEx (by decide),
   C4_unknown_product_404_no_mutation.2 cfgEx [p1ex] [] "zzz" "T" formEx
      (by decide)⟩

/-- C10: a `POST /order/<product_id>` request writes back exactly the
products and admins collections it read — the intake path never modifies
catalog entries or admin records, whether or not the submission succeeds. -/
theorem C10_order_post_frame :
    ∀ cfg db pid uuidHex timeNow langArg form,
      (order_post cfg db pid uuidHex timeNow langArg form).db.products =
          db.products ∧
        (order_post cfg db pid uuidHex timeNow langArg form).db.admins =
          db.admins := by
  intro cfg db pid u tm l f
  rcases hf : find_product db pid with _ | p
  · rw [order_post_none cfg db pid u tm l f hf]
    exact ⟨rfl, rfl⟩
  · rw [order_post_some cfg db pid u tm l f p hf]
    exact ⟨rfl, rfl⟩

/-- C2 counterexample: `write_db` issues no rename at all, and between its
truncating open and its write the target file is observably empty — so the
claimed write-to-temporary-file-then-atomic-rename discipline is absent
and a racing reader can observe a truncated file. -/
theorem C2_write_db_no_rename_cex :
    ((write_db_ops dbEx).all fun op => !(op.isRename)) = true ∧
      FileContent.empty ∈
        List.scanl applyOp (FileContent.full dbEx) (write_db_ops dbEx) := by
  decide

/-- C2 amended: the store write serializes the whole updated collection,
but by opening the target for truncating write and writing in place — no
temporary file and no rename are used, and a reader racing the writer can
observe the empty truncated file; the append path still reads the full
collection and adds exactly one record. -/
theorem C2_write_db_in_place_truncation :
    (∀ d : DB,
        write_db_ops d = [FsOp.openTruncate dbPath, FsOp.writeContent dbPath d]) ∧
      (∀ d : DB, ((write_db_ops d).all fun op => !(op.isRename)) = true) ∧
      (∀ (d : DB) (fc : FileContent),
          FileContent.empty ∈ List.scanl applyOp fc (write_db_ops d)) ∧
      (∀ cfg db pid uuidHex timeNow langArg form o,
          (order_post cfg db pid uuidHex timeNow langArg form).resp =
            OrderResponse.ordered o →
          (order_post cfg db pid uuidHex timeNow langArg form).db.orders =
            db.orders ++ [o]) := by
  refine ⟨fun d => rfl, fun d => rfl, fun d fc => ?_, ?_⟩
  · simp [write_db_ops, List.scanl, applyOp]
  · intro cfg db pid u tm l f o h
    rcases hf : find_product db pid with _ | p
    · rw [order_post_none cfg db pid u tm l f hf] at h
      exact absurd h (by simp)
    · rw [order_post_some cfg db pid u tm l f p hf] at h ⊢
      injection h with h
      subst h
      rfl

/-- Witness for the hypothesis-bearing part of the amended C2. -/
theorem C2_write_db_in_place_truncation_witness :
    (order_post cfgEx dbEx "p1" "u123" "T" none formEx).db.orders =
      dbEx.orders ++ [oC1ex] :=
  C2_write_db_in_place_truncation.2.2.2 cfgEx dbEx "p1" "u123" "T" none
    formEx oC1ex (by decide)

/-- C3: the price stored in a created order is a by-value copy of the
resolved product's catalog price at submission time, and any later change
to the products table (modelled as an arbitrary products-list update,
since `src/` has no price-edit operation) leaves every persisted order —
hence its price field — unchanged. -/
theorem C3_price_copied_not_referenced :
    ∀ cfg db pid uuidHex timeNow langArg form p o
      (f : List Product → List Product),
      find_product db pid = some p →
      (order_post cfg db pid uuidHex timeNow langArg form).resp =
        OrderResponse.ordered o →
      o.price = p.price ∧
        (updateProducts f
            (order_post cfg db pid uuidHex timeNow langArg form).db).orders =
          (order_post cfg db pid uuidHex timeNow langArg form).db.orders := by
  intro cfg db pid u tm l form p o f hf h
  rw [order_post_some cfg db pid u tm l form p hf] at h ⊢
  injection h with h
  subst h
  exact ⟨rfl, rfl⟩

/-- Witness for C3: the created order copies the catalog price 45000, and
even deleting the whole catalog afterwards leaves the stored orders
untouched. -/
theorem C3_price_copied_not_referenced_witness :
    oC1ex.price = p1ex.price ∧
      (updateProducts (fun _ => [])
          (order_post cfgEx dbEx "p1" "u123" "T" none formEx).db).orders =
        (order_post cfgEx dbEx "p1" "u123" "T" none formEx).db.orders :=
  C3_price_copied_not_referenced cfgEx dbEx "p1" "u123" "T" none formEx
    p1ex oC1ex (fun _ => []) (by decide) (by decide)

/-- C5 counterexample: the quantity string of the negative numeral parses
as a float, is not a positive number, and the request still succeeds with
the parsed negative value stored — not with the claimed default of 1. -/
theorem C5_negative_qty_cex :
    (order_post cfgEx dbEx "p1" "u123" "T" none formNeg).resp =
        OrderResponse.ordered oNegEx ∧
      oNegEx.qty = -2 ∧ ¬ (0 < oNegEx.qty) ∧ oNegEx.qty ≠ 1 := by
  decide

/-- C5 amended: in `main.py` the stored quantity is the `float`-parsed
value whenever the field parses (of any sign — positivity is not checked),
and 1 when parsing fails, with the request succeeding either way; in
`bot_main.py` the submitted quantity string is stored verbatim, unparsed. -/
theorem C5_qty_parse_behavior :
    (∀ cfg db pid uuidHex timeNow langArg form o,
        (order_post cfg db pid uuidHex timeNow langArg form).resp =
          OrderResponse.ordered o →
        o.qty = (pyFloat (form.qty.getD "1")).getD 1) ∧
    (∀ cfg products arr pid timeNow form,
        (bot_order_post cfg products arr pid timeNow form).resp =
          BotResponse.ordered →
        ∃ o, (bot_order_post cfg products arr pid timeNow form).orders =
            arr ++ [o] ∧ o.qty = form.qty.getD "1") := by
  constructor
  · intro cfg db pid u tm l f o h
    rcases hf : find_product db pid with _ | p
    · rw [order_post_none cfg db pid u tm l f hf] at h
      exact absurd h (by simp)
    · rw [order_post_some cfg db pid u tm l f p hf] at h
      injection h with h
      subst h
      rfl
  · intro cfg products arr pid tm f h
    rcases hf : products.find? (fun q => q.id == pid) with _ | p
    · rw [bot_order_post_none cfg products arr pid tm f hf] at h
      exact absurd h (by simp)
    · rw [bot_order_post_some cfg products arr pid tm f p hf]
      exact ⟨mkBotOrder p pid tm f, rfl, rfl⟩

/-- Witness for the amended C5 at the negative-quantity submission. -/
theorem C5_qty_parse_behavior_witness :
    oNegEx.qty = (pyFloat (formNeg.qty.getD "1")).getD 1 ∧
      ∃ o, (bot_order_post cfgEx [p1ex] [] "p1" "T" formNeg).orders =
          [] ++ [o] ∧ o.qty = formNeg.qty.getD "1" :=
  ⟨C5_qty_parse_behavior.1 cfgEx dbEx "p1" "u123" "T" none formNeg oNegEx
      (by decide),
   C5_qty_parse_behavior.2 cfgEx [p1ex] [] "p1" "T" formNeg (by decide)⟩

/-- C6 counterexample: in the structured JSON channel (`web_server.py`),
an unconfigured bot credential fails the submission with a 500 instead of
succeeding, and a raised transport error is surfaced verbatim in the
response to the submitter instead of being swallowed. -/
theorem C6_api_surfaces_failures_cex :
    (api_order ⟨false, none⟩ okT (some payloadEx)).resp =
        ApiResponse.notConfigured ∧
      (api_order ⟨true, some 5⟩ failT (some payloadEx)).resp =
        ApiResponse.sendError "boom" := by
  decide

/-- C6 amended: in the form channel (`main.py`), notification never
affects the submitter's outcome — the response and the persisted database
are identical under any transport behavior, the dispatcher is a no-op when
the bot or the destination is unconfigured, and a raised transport
exception is caught at the dispatcher as a logged error; in the structured
JSON channel (`web_server.py`), by contrast, missing configuration and
transport failures are surfaced to the submitter as error responses. -/
theorem C6_dispatch_isolation :
    (∀ cfg t₁ t₂ db pid uuidHex timeNow langArg form,
        (order_post_full cfg t₁ db pid uuidHex timeNow langArg form).resp =
            (order_post_full cfg t₂ db pid uuidHex timeNow langArg form).resp ∧
          (order_post_full cfg t₁ db pid uuidHex timeNow langArg form).db =
            (order_post_full cfg t₂ db pid uuidHex timeNow langArg form).db) ∧
    (∀ cfg t o, cfg.botConfigured = false →
        send_order_to_group_async cfg t o = SendResult.notSent) ∧
    (∀ cfg t o, groupTruthy cfg.orderGroupId = false →
        send_order_to_group_async cfg t o = SendResult.notSent) ∧
    (∀ cfg t o e, cfg.botConfigured = true →
        groupTruthy cfg.orderGroupId = true → t o = Except.error e →
        send_order_to_group_async cfg t o = SendResult.loggedError e) ∧
    (∀ cfg t d, cfg.botConfigured = false →
        (api_order cfg t (some d)).resp = ApiResponse.notConfigured) := by
  refine ⟨?_, ?_, ?_, ?_, ?_⟩
  · intro cfg t₁ t₂ db pid u tm l f
    rw [order_post_full_resp, order_post_full_resp, order_post_full_db,
      order_post_full_db]
    exact ⟨rfl, rfl⟩
  · intro cfg t o h
    unfold send_order_to_group_async
    rw [h]
    rfl
  · intro cfg t o h
    unfold send_order_to_group_async
    rw [h]
    cases cfg.botConfigured <;> rfl
  · intro cfg t o e hb hg ht
    unfold send_order_to_group_async
    rw [hb, hg, ht]
    rfl
  · intro cfg t d h
    unfold api_order
    rw [h]
    rfl

/-- Witness for the amended C6 at concrete transports and configurations. -/
theorem C6_dispatch_isolation_witness :
    ((order_post_full cfgEx okTO dbEx "p1" "u123" "T" none formEx).resp =
        (order_post_full cfgEx failTO dbEx "p1" "u123" "T" none formEx).resp ∧
      (order_post_full cfgEx okTO dbEx "p1" "u123" "T" none formEx).db =
        (order_post_full cfgEx failTO dbEx "p1" "u123" "T" none formEx).db) ∧
    send_order_to_group_async ⟨false, none, true⟩ okTO oC1ex =
        SendResult.notSent ∧
    send_order_to_group_async ⟨true, none, true⟩ okTO oC1ex =
        SendResult.notSent ∧
    send_order_to_group_async cfgEx failTO oC1ex =
        SendResult.loggedError "boom" ∧
    (api_order ⟨false, some 5⟩ okT (some payloadEx)).resp =
        ApiResponse.notConfigured :=
  ⟨C6_dispatch_isolation.1 cfgEx okTO failTO dbEx "p1" "u123" "T" none formEx,
   C6_dispatch_isolation.2.1 ⟨false, none, true⟩ okTO oC1ex rfl,
   C6_dispatch_isolation.2.2.1 ⟨true, none, true⟩ okTO oC1ex rfl,
   C6_dispatch_isolation.2.2.2.1 cfgEx failTO oC1ex "boom" rfl rfl rfl,
   C6_dispatch_isolation.2.2.2.2 ⟨false, some 5⟩ okT payloadEx rfl⟩

/-- C7 counterexample: the structured JSON channel attempts a notification
with no persist event anywhere in its trace — a notification for an order
that is never durably recorded. -/
theorem C7_notify_without_persist_cex :
    (api_order ⟨true, some 5⟩ okT (some payloadEx)).trace = [EvKind.notify] ∧
      persistBefore (api_order ⟨true, some 5⟩ okT (some payloadEx)).trace =
        false ∧
      ((api_order ⟨true, some 5⟩ okT (some payloadEx)).trace.any isPersist) =
        false := by
  decide

/-- C7 amended: on the form channels (`main.py`, `bot_main.py`) the
durable store write always precedes any notification scheduling in the
request's event trace; the structured JSON channel (`web_server.py`)
however notifies without ever persisting. -/
theorem C7_persist_precedes_notify :
    (∀ cfg db pid uuidHex timeNow langArg form,
        persistBefore
          (order_post cfg db pid uuidHex timeNow langArg form).trace = true) ∧
    (∀ cfg products arr pid timeNow form,
        persistBefore
          (bot_order_post cfg products arr pid timeNow form).trace = true) ∧
    (∀ cfg t p, ((api_order cfg t p).trace.any isPersist) = false) := by
  refine ⟨?_, ?_, ?_⟩
  · intro cfg db pid u tm l f
    rcases hf : find_product db pid with _ | p
    · rw [order_post_none cfg db pid u tm l f hf]
      rfl
    · rw [order_post_some cfg db pid u tm l f p hf]
      cases cfg.aioloopRunning <;> rfl
  · intro cfg products arr pid tm f
    rcases hf : products.find? (fun q => q.id == pid) with _ | p
    · rw [bot_order_post_none cfg products arr pid tm f hf]
      rfl
    · rw [bot_order_post_some cfg products arr pid tm f p hf]
      cases cfg.aioloopRunning && cfg.botConfigured && groupTruthy cfg.orderGroupId <;>
        rfl
  · intro cfg t p
    rcases api_trace_cases cfg t p with h | h <;> rw [h] <;> rfl

/-- C8 counterexample: for a payload whose product identifier resolves
nowhere in the catalog, the structured JSON channel accepts the submission
and notifies without persisting, while the Intake Endpoint contract the
claim asserts rejects it as not-found with no store mutation — the two
behaviors disagree at this concrete input. -/
theorem C8_json_channel_not_intake_cex :
    (api_order ⟨true, some 5⟩ okT (some payloadZ)).resp = ApiResponse.ok ∧
      ((api_order ⟨true, some 5⟩ okT (some payloadZ)).trace.any isPersist) =
        false ∧
      (specIntakeJson dbEx "zzz" 2 "Tashkent" "12:00" "ru" "oid1").1 =
        SpecIntakeResult.notFound ∧
      (specIntakeJson dbEx "zzz" 2 "Tashkent" "12:00" "ru" "oid1").2.1 =
        dbEx := by
  decide

/-- C8 amended: the structured JSON channel is not routed through the
intake contract — `api_order` never emits a persist event for any
configuration, transport or payload, and it accepts a submission whose
product identifier is unknown to the catalog, merely relaying a
notification built from client-supplied fields. -/
theorem C8_json_channel_no_intake :
    (∀ cfg t p, ((api_order cfg t p).trace.any isPersist) = false) ∧
      (api_order ⟨true, some 5⟩ okT (some payloadZ)).resp = ApiResponse.ok := by
  constructor
  · intro cfg t p
    rcases api_trace_cases cfg t p with h | h <;> rw [h] <;> rfl
  · decide

/-- C9 counterexample: with the unlocked read-modify-write of the source,
the interleaving in which both handlers read before either writes loses
the first submission's record — the final store holds only the second
record, so not every concurrent submission appears. -/
theorem C9_lost_update_cex :
    (raceRun o1ex o2ex []
        [RWStep.read1, RWStep.read2, RWStep.write1, RWStep.write2]).file =
      [o2ex] ∧
      o1ex ∉ (raceRun o1ex o2ex []
        [RWStep.read1, RWStep.read2, RWStep.write1, RWStep.write2]).file := by
  decide

/-- C9 amended: the source serializes nothing — the order route performs
an unlocked read-modify-write of the shared file.  When the two
submissions happen to run serialized, both records appear in the final
store; but the concurrent interleaving where both read before either
writes loses the first record (last writer wins). -/
theorem C9_unlocked_read_modify_write :
    ∀ (o1 o2 : Order) (start : List Order),
      (raceRun o1 o2 start
          [RWStep.read1, RWStep.write1, RWStep.read2, RWStep.write2]).file =
        start ++ [o1] ++ [o2] ∧
      (raceRun o1 o2 start
          [RWStep.read1, RWStep.read2, RWStep.write1, RWStep.write2]).file =
        start ++ [o2] := by
  intro o1 o2 start
  exact ⟨rfl, rfl⟩

end Altindan
